import Mathlib

/-!
Verification of the bluetooth discovery manager
(`homeassistant/components/bluetooth/__init__.py`).

Shallow embedding: the data model, the match predicate
(`_ble_device_matches` with its `fnmatch` glob), the LRU match cache,
the advertisement-intake path (`BluetoothManager._device_detected`),
callback registration/unregistration, unavailability tracking
(`async_track_unavailable`, `_async_check_unavailable`) and the
`async_start` error routing.  Python exceptions raised by subscriber
callbacks are modelled by a `throws` flag on each callback handle; the
try/except blocks of the source are modelled by an explicit
`Except`-valued invocation that the embedded code catches.  Python
truthiness of strings (the empty string is falsy) is modelled
explicitly wherever the source relies on it (`or` chains, `and`
chains over `.get` results).
-/

namespace Bluetooth

/-- `bleak.backends.scanner.AdvertisementData`: one broadcast snapshot.
`manufacturer_data` maps a manufacturer id to a raw byte payload,
`service_data` maps a uuid to a payload (bytes are modelled as `List Nat`). -/
structure AdvertisementData where
  local_name : Option String
  manufacturer_data : List (Nat × List Nat)
  service_data : List (String × List Nat)
  service_uuids : List String
  deriving DecidableEq, Repr

/-- `bleak.backends.device.BLEDevice`: the platform device handle. -/
structure BLEDevice where
  address : String
  name : Option String
  rssi : Int
  deriving DecidableEq, Repr

/-- A matcher as consumed by `_ble_device_matches`: the optional fields the
source reads via `matcher.get(...)` (a `TypedDict` with `total=False`, so an
absent key reads as `None`).  Used both as the callback matcher
(`BluetoothCallbackMatcher`) and as the field part of an integration matcher. -/
structure BluetoothCallbackMatcher where
  address : Option String := none
  local_name : Option String := none
  service_uuid : Option String := none
  manufacturer_id : Option Nat := none
  manufacturer_data_start : Option (List Nat) := none
  deriving DecidableEq, Repr

/-- `homeassistant.loader.BluetoothMatcher`: an integration matcher is a
required `domain` plus the optional matcher fields. -/
structure BluetoothMatcher where
  domain : String
  fields : BluetoothCallbackMatcher
  deriving DecidableEq, Repr

/-- A registered subscriber callback handle.  `id` stands for the Python
function object identity; `throws` says whether invoking it raises an
exception (the source wraps every invocation in try/except). -/
structure Callback where
  id : Nat
  throws : Bool
  deriving DecidableEq, Repr

/-! ### `fnmatch` — glob matching

Embedding of Python `fnmatch.fnmatch(name, pattern)` on a POSIX system
(where `os.path.normcase` is the identity): `*` matches any sequence,
`?` any single character, `[...]` a character class (leading `!`
negates, a `]` directly after `[` or `[!` is a literal member, `a-b`
is a range); a `[` with no closing `]` is a literal `[`. -/

/-- Scan for the closing `]` of a character class: returns the class body
and the rest of the pattern, or `none` when there is no closing `]`. -/
def findClose : List Char → Option (List Char × List Char)
  | [] => none
  | c :: rest =>
      if c = ']' then some ([], rest)
      else (findClose rest).map (fun br => (c :: br.1, br.2))

/-- Parse the body of a character class (after the optional `!`): a `]` in
first position is a literal class member, then scan for the closing `]`. -/
def parseClassCore (neg : Bool) : List Char → Option (Bool × List Char × List Char)
  | [] => none
  | c :: rest2 =>
      if c = ']' then (findClose rest2).map (fun br => (neg, ']' :: br.1, br.2))
      else (findClose (c :: rest2)).map (fun br => (neg, br.1, br.2))

/-- Parse a character class from the pattern chars following `[`:
returns (negated, body, rest of pattern); `none` when the `[` is a
literal (no closing `]`).  A `!` right after `[` negates; a `]` right
after `[` or `[!` is a literal class member. -/
def parseClass : List Char → Option (Bool × List Char × List Char)
  | [] => none
  | c :: rest =>
      if c = '!' then parseClassCore true rest
      else parseClassCore false (c :: rest)

/-- Character-class membership: `a-b` (with a following item or end) is a
range, everything else is a literal member; a trailing `-` is literal. -/
def classMem (c : Char) : List Char → Bool
  | a :: '-' :: b :: rest => (a ≤ c && c ≤ b) || classMem c rest
  | a :: rest => (c == a) || classMem c rest
  | [] => false

/-- One token of a glob pattern. -/
inductive GlobTok where
  | star
  | question
  | lit (c : Char)
  | cls (neg : Bool) (body : List Char)
  deriving DecidableEq, Repr

/-- Tokenize a glob pattern.  The `Nat` fuel only bounds the recursion so
that it is structural (a class consumes its whole `[...]` span at once);
every step consumes at least one pattern character, so the initial fuel
`length + 1` never runs out — `tokenizeAux_congr` below proves the fuel
irrelevant. -/
def tokenizeAux : Nat → List Char → List GlobTok
  | 0, _ => []
  | _ + 1, [] => []
  | f + 1, c :: ps =>
      if c = '*' then GlobTok.star :: tokenizeAux f ps
      else if c = '?' then GlobTok.question :: tokenizeAux f ps
      else if c = '[' then
        match parseClass ps with
        | some nbr => GlobTok.cls nbr.1 nbr.2.1 :: tokenizeAux f nbr.2.2
        | none => GlobTok.lit '[' :: tokenizeAux f ps
      else GlobTok.lit c :: tokenizeAux f ps

/-- Tokenize a glob pattern with sufficient fuel. -/
def tokenize (p : List Char) : List GlobTok := tokenizeAux (p.length + 1) p

/-- Match a token list against a name: `*` matches any suffix split, `?`
and a class consume one character, a literal must compare equal. -/
def tokMatch : List GlobTok → List Char → Bool
  | [], s => s.isEmpty
  | GlobTok.star :: ts, s => s.tails.any (fun t => tokMatch ts t)
  | GlobTok.question :: _, [] => false
  | GlobTok.question :: ts, _ :: cs => tokMatch ts cs
  | GlobTok.cls _ _ :: _, [] => false
  | GlobTok.cls neg body :: ts, c :: cs => (classMem c body != neg) && tokMatch ts cs
  | GlobTok.lit _ :: _, [] => false
  | GlobTok.lit a :: ts, c :: cs => (a == c) && tokMatch ts cs

/-- Core glob matcher over character lists: `globMatch pattern name`. -/
def globMatch (p : List Char) (s : List Char) : Bool :=
  tokMatch (tokenize p) s

/-- `fnmatch.fnmatch(name, pat)` (POSIX, so no case folding). -/
def fnmatch (name : String) (pat : String) : Bool :=
  globMatch pat.toList name.toList

/-! ### The match predicate and ServiceInfo -/

/-- Python `x or y` on an optional string: `None` and the empty string
are falsy and fall through to `y`. -/
def strOr (x : Option String) (y : String) : String :=
  match x with
  | some s => if s = "" then y else s
  | none => y

/-- `MAX_REMEMBER_ADDRESSES` (the LRU capacity). -/
def MAX_REMEMBER_ADDRESSES : Nat := 2048

/-- `SOURCE_LOCAL`. -/
def SOURCE_LOCAL : String := "local"

/-- `BluetoothServiceInfoBleak`: the outward-facing projection of a
(device, advertisement) pair plus a provenance tag. -/
structure BluetoothServiceInfoBleak where
  name : String
  address : String
  rssi : Int
  manufacturer_data : List (Nat × List Nat)
  service_data : List (String × List Nat)
  service_uuids : List String
  source : String
  device : BLEDevice
  advertisement : AdvertisementData
  deriving DecidableEq, Repr

/-- `BluetoothServiceInfoBleak.from_advertisement`: the `name` field uses the
Python `or` chain `advertisement_data.local_name or device.name or
device.address`. -/
def BluetoothServiceInfoBleak.from_advertisement (device : BLEDevice)
    (advertisement_data : AdvertisementData) (source : String) :
    BluetoothServiceInfoBleak :=
  { name := strOr advertisement_data.local_name (strOr device.name device.address)
    address := device.address
    rssi := device.rssi
    manufacturer_data := advertisement_data.manufacturer_data
    service_data := advertisement_data.service_data
    service_uuids := advertisement_data.service_uuids
    source := source
    device := device
    advertisement := advertisement_data }

/-- `_ble_device_matches(matcher, device, advertisement_data)`.  Each present
field must pass; the source returns `False` at the first failing field and
`True` at the end, which the short-circuiting `&&` chain reproduces. -/
def _ble_device_matches (matcher : BluetoothCallbackMatcher)
    (device : BLEDevice) (advertisement_data : AdvertisementData) : Bool :=
  (match matcher.address with
   | some matcher_address => device.address == matcher_address
   | none => true) &&
  (match matcher.local_name with
   | some matcher_local_name =>
       fnmatch (strOr advertisement_data.local_name
                  (strOr device.name device.address))
         matcher_local_name
   | none => true) &&
  (match matcher.service_uuid with
   | some matcher_service_uuid =>
       advertisement_data.service_uuids.contains matcher_service_uuid
   | none => true) &&
  (match matcher.manufacturer_id with
   | some matcher_manufacturer_id =>
       (advertisement_data.manufacturer_data.map Prod.fst).contains
         matcher_manufacturer_id
   | none => true) &&
  (match matcher.manufacturer_data_start with
   | some matcher_manufacturer_data_start =>
       advertisement_data.manufacturer_data.any
         (fun kv => List.isPrefixOf matcher_manufacturer_data_start kv.2)
   | none => true)

/-! ### The LRU match cache

`lru.LRU(MAX_REMEMBER_ADDRESSES)`, used by `_device_detected` only through
`key in cache` (which does not touch recency) and `cache[key] = True`
(which inserts/moves the key to most-recently-used and evicts the
least-recently-used key beyond capacity).  Modelled as the key list in
most-recently-used-first order. -/

/-- The match-cache key: (address, has-manufacturer-data). -/
abbrev MatchKey := String × Bool

/-- `cache[key] = True`: move/insert `key` to the MRU end, evict beyond
capacity. -/
def lruInsert (cache : List MatchKey) (key : MatchKey) : List MatchKey :=
  (key :: cache.erase key).take MAX_REMEMBER_ADDRESSES

/-! ### Manager state -/

/-- An unavailability callback handle (same exception model as `Callback`). -/
structure UnavailableCallback where
  id : Nat
  throws : Bool
  deriving DecidableEq, Repr

/-- The mutable state of `BluetoothManager` relevant to the discovery core,
together with the scanner state it manipulates directly: `history` is the
scanner's address → latest (device, advertisement) map (keys unique, in
insertion order as a Python dict), `matched` the LRU match cache,
`callbacks` the ordered subscription list, `unavailable_callbacks` the
address → callback-list map.  The integration matcher list is fixed at
construction. -/
structure BluetoothManager where
  integration_matchers : List BluetoothMatcher
  matched : List MatchKey
  callbacks : List (Callback × Option BluetoothCallbackMatcher)
  unavailable_callbacks : List (String × List UnavailableCallback)
  history : List (String × (BLEDevice × AdvertisementData))
  deriving DecidableEq, Repr

/-- Invoking a Python callback: raises iff the handle's `throws` flag is
set.  The embedded code sites wrap this in the source's try/except. -/
def invokeCallback (cb : Callback) : Except Unit Unit :=
  if cb.throws then Except.error () else Except.ok ()

/-- Invoking an unavailability callback. -/
def invokeUnavailableCallback (cb : UnavailableCallback) : Except Unit Unit :=
  if cb.throws then Except.error () else Except.ok ()

/-! ### The intake path: `BluetoothManager._device_detected` -/

/-- Result of one run of `_device_detected`: the new manager state,
`matched_domains` (`none` when the cache short-circuited the evaluation,
`some ds` when the full integration-matcher evaluation ran and produced
the distinct matched domains `ds`), whether the callback-dispatch pass
was reached, the dispatch invocations `(callback id, service info)` in
order, the ids whose invocation raised (each exception caught by the
source's try/except), and the discovery-flow creation requests
`(domain, service info)`. -/
structure DetectedResult where
  state : BluetoothManager
  matched_domains : Option (List String)
  callbackPassRan : Bool
  invocations : List (Nat × BluetoothServiceInfoBleak)
  caught : List Nat
  flows : List (String × BluetoothServiceInfoBleak)
  deriving DecidableEq, Repr

/-- The dispatch loop of `_device_detected`: iterate the subscription list in
order; for each entry whose matcher is `None` or matches, build the shared
`service_info` if not yet built and invoke the callback inside try/except.
Returns (final lazily-built service info, invocations, caught ids). -/
def dispatchCallbacks (device : BLEDevice) (advertisement_data : AdvertisementData) :
    List (Callback × Option BluetoothCallbackMatcher) →
    Option BluetoothServiceInfoBleak →
    Option BluetoothServiceInfoBleak × List (Nat × BluetoothServiceInfoBleak) × List Nat
  | [], service_info => (service_info, [], [])
  | (callback, matcher) :: rest, service_info =>
      let hit : Bool :=
        match matcher with
        | none => true
        | some m => _ble_device_matches m device advertisement_data
      if hit then
        let si :=
          match service_info with
          | some si => si
          | none =>
              BluetoothServiceInfoBleak.from_advertisement device
                advertisement_data SOURCE_LOCAL
        -- try: callback(service_info, BluetoothChange.ADVERTISEMENT)
        -- except Exception: _LOGGER.exception(...)  -- caught, loop continues
        let wasCaught : Bool :=
          match invokeCallback callback with
          | Except.error _ => true
          | Except.ok _ => false
        let t := dispatchCallbacks device advertisement_data rest (some si)
        (t.1, (callback.id, si) :: t.2.1,
          (if wasCaught then [callback.id] else []) ++ t.2.2)
      else
        dispatchCallbacks device advertisement_data rest service_info

/-- `BluetoothManager._device_detected(device, advertisement_data)`. -/
def _device_detected (mgr : BluetoothManager) (device : BLEDevice)
    (advertisement_data : AdvertisementData) : DetectedResult :=
  let match_key : MatchKey :=
    (device.address, !advertisement_data.manufacturer_data.isEmpty)
  let match_key_has_mfr_data : MatchKey := (device.address, true)
  -- "If we matched without manufacturer_data, we need to do it again
  --  since we may think the device is unsupported otherwise"
  let matched_domains : Option (List String) :=
    if !(mgr.matched.contains match_key_has_mfr_data) &&
        !(mgr.matched.contains match_key) then
      some (((mgr.integration_matchers.filter
          (fun m => _ble_device_matches m.fields device advertisement_data)).map
            BluetoothMatcher.domain).dedup)
    else
      none
  let matched1 : List MatchKey :=
    match matched_domains with
    | some ds => if ds.isEmpty then mgr.matched else lruInsert mgr.matched match_key
    | none => mgr.matched
  let mgr1 := { mgr with matched := matched1 }
  -- if not matched_domains and not self._callbacks: return
  if (matched_domains.getD []).isEmpty && mgr.callbacks.isEmpty then
    { state := mgr1, matched_domains := matched_domains, callbackPassRan := false,
      invocations := [], caught := [], flows := [] }
  else
    let t := dispatchCallbacks device advertisement_data mgr.callbacks none
    let ds := matched_domains.getD []
    -- if not matched_domains: return
    if ds.isEmpty then
      { state := mgr1, matched_domains := matched_domains, callbackPassRan := true,
        invocations := t.2.1, caught := t.2.2, flows := [] }
    else
      let service_info :=
        match t.1 with
        | some si => si
        | none =>
            BluetoothServiceInfoBleak.from_advertisement device
              advertisement_data SOURCE_LOCAL
      { state := mgr1, matched_domains := matched_domains, callbackPassRan := true,
        invocations := t.2.1, caught := t.2.2,
        flows := ds.map (fun domain => (domain, service_info)) }

/-- Process a sequence of advertisement events through the intake path,
threading the manager state; returns the final state and the per-event
results in order. -/
def processEvents (mgr : BluetoothManager) :
    List (BLEDevice × AdvertisementData) → BluetoothManager × List DetectedResult
  | [] => (mgr, [])
  | (device, advertisement_data) :: rest =>
      let r := _device_detected mgr device advertisement_data
      let t := processEvents r.state rest
      (t.1, r :: t.2)

/-! ### Callback registration: `async_register_callback` -/

/-- `dict.get(address)` on the scanner history. -/
def lookupHistory (history : List (String × (BLEDevice × AdvertisementData)))
    (address : String) : Option (BLEDevice × AdvertisementData) :=
  (history.find? (fun p => p.1 == address)).map Prod.snd

/-- Result of `async_register_callback`: the new state, the immediate-replay
invocations `(callback id, service info)` performed before returning, and
whether the replay raised an exception that the source caught. -/
structure RegisterResult where
  state : BluetoothManager
  replay : List (Nat × BluetoothServiceInfoBleak)
  replayCaught : Bool
  deriving DecidableEq, Repr

/-- `BluetoothManager.async_register_callback(callback, matcher)`.  The replay
guard embeds the source's truthiness chain `matcher and (address :=
matcher.get(ADDRESS)) and self.scanner and (device_adv_data :=
self.scanner.history.get(address))`: a matcher dict carrying the address key
is truthy, the scanner is assumed set up (the history lives on it), the
empty string is a falsy address and skips the replay, and a present history
value (a tuple) is truthy. -/
def async_register_callback (mgr : BluetoothManager) (callback : Callback)
    (matcher : Option BluetoothCallbackMatcher) : RegisterResult :=
  let mgr1 := { mgr with callbacks := mgr.callbacks ++ [(callback, matcher)] }
  let noReplay : RegisterResult :=
    { state := mgr1, replay := [], replayCaught := false }
  match matcher with
  | none => noReplay
  | some m =>
      match m.address with
      | none => noReplay
      | some address =>
          if address = "" then noReplay
          else
            match lookupHistory mgr.history address with
            | none => noReplay
            | some da =>
                -- try: callback(from_advertisement(*device_adv_data, SOURCE_LOCAL), ...)
                -- except Exception: _LOGGER.exception(...)  -- caught
                let wasCaught : Bool :=
                  match invokeCallback callback with
                  | Except.error _ => true
                  | Except.ok _ => false
                { state := mgr1,
                  replay := [(callback.id,
                    BluetoothServiceInfoBleak.from_advertisement da.1 da.2
                      SOURCE_LOCAL)],
                  replayCaught := wasCaught }

/-- The unregister handle returned by `async_register_callback`:
`self._callbacks.remove(callback_entry)` removes the first occurrence equal
to the entry (every verified scenario has the entry present, so the
`ValueError` branch of `list.remove` is unreachable there). -/
def unregisterCallback (mgr : BluetoothManager)
    (entry : Callback × Option BluetoothCallbackMatcher) : BluetoothManager :=
  { mgr with callbacks := mgr.callbacks.erase entry }

/-! ### Unavailability tracking -/

/-- `dict.get(address)` on the unavailability-subscription map, defaulted to
the empty list. -/
def lookupUnavailable (unavail : List (String × List UnavailableCallback))
    (address : String) : List UnavailableCallback :=
  ((unavail.find? (fun p => p.1 == address)).map Prod.snd).getD []

/-- `BluetoothManager.async_track_unavailable(callback, address)`:
`self._unavailable_callbacks.setdefault(address, []).append(callback)`. -/
def async_track_unavailable (mgr : BluetoothManager)
    (callback : UnavailableCallback) (address : String) : BluetoothManager :=
  if ((mgr.unavailable_callbacks.find? (fun p => p.1 == address)).isSome) then
    { mgr with unavailable_callbacks := (mgr.unavailable_callbacks.map
        (fun p => if p.1 == address then (p.1, p.2 ++ [callback]) else p)) }
  else
    { mgr with unavailable_callbacks :=
        mgr.unavailable_callbacks ++ [(address, [callback])] }

/-- The unregister handle returned by `async_track_unavailable`:
`self._unavailable_callbacks[address].remove(callback)` then delete the key
when its list became empty.  When the handle is misused (callback absent)
Python raises and leaves the map unchanged; this totalization returns the
unchanged map in that case, which coincides with the post-exception state. -/
def untrackUnavailable (mgr : BluetoothManager)
    (callback : UnavailableCallback) (address : String) : BluetoothManager :=
  let l2 := (lookupUnavailable mgr.unavailable_callbacks address).erase callback
  if l2.isEmpty then
    { mgr with unavailable_callbacks :=
        mgr.unavailable_callbacks.filter (fun p => p.1 != address) }
  else
    { mgr with unavailable_callbacks := (mgr.unavailable_callbacks.map
        (fun p => if p.1 == address then (p.1, l2) else p)) }

/-! ### The availability tracker: `_async_check_unavailable` -/

/-- Result of one tracker tick: the new manager state (history pruned), the
disappeared addresses in processing order, the unavailability invocations
`(address, callback id)` in order, and the caught-exception invocations. -/
structure UnavailableResult where
  state : BluetoothManager
  disappeared : List String
  invocations : List (String × Nat)
  caught : List (String × Nat)
  deriving DecidableEq, Repr

/-- The per-address loop of `_async_check_unavailable`: for each disappeared
address, `del scanner.history[address]`, then invoke every registered
unavailability callback in registration order, each inside try/except. -/
def sweepDisappeared (unavail : List (String × List UnavailableCallback))
    (hist : List (String × (BLEDevice × AdvertisementData))) :
    List String →
    List (String × (BLEDevice × AdvertisementData)) ×
      List (String × Nat) × List (String × Nat)
  | [] => (hist, [], [])
  | address :: rest =>
      let hist1 := hist.filter (fun p => p.1 != address)
      -- if not (callbacks := self._unavailable_callbacks.get(address)): continue
      let callbacks := lookupUnavailable unavail address
      let invs := callbacks.map (fun cb => (address, cb.id))
      let caught := (callbacks.filter (fun cb =>
          match invokeUnavailableCallback cb with
          | Except.error _ => true
          | Except.ok _ => false)).map (fun cb => (address, cb.id))
      let t := sweepDisappeared unavail hist1 rest
      (t.1, invs ++ t.2.1, caught ++ t.2.2)

/-- `_async_check_unavailable(now)`: `history = set(scanner.history)`,
`active` the addresses of `scanner.discovered_devices` (the driver's live
set, a parameter here), `disappeared = history - active`. -/
def _async_check_unavailable (mgr : BluetoothManager) (active : List String) :
    UnavailableResult :=
  let history := mgr.history.map Prod.fst
  let disappeared := history.filter (fun a => !(active.contains a))
  let t := sweepDisappeared mgr.unavailable_callbacks mgr.history disappeared
  { state := { mgr with history := t.1 }, disappeared := disappeared,
    invocations := t.2.1, caught := t.2.2 }

/-! ### `async_start` error routing -/

/-- Modelled from the spec: the transport driver (`HaBleakScanner`, defined
in `models.py`, which is not under `src/`) exposes `async_setup` and
`start`, each of which may raise `FileNotFoundError`/`BleakError`; these two
outcomes are the only driver behavior `async_start` depends on. -/
structure ScannerDriver where
  setupOk : Bool
  startOk : Bool
  deriving DecidableEq, Repr

/-- The observable actions of one `async_start` attempt, in order.
`raiseInitFailed` is the `RuntimeError("Failed to initialize Bluetooth")`
(hard, non-retryable); `raiseNotReady` is the
`ConfigEntryNotReady("Failed to start Bluetooth")` (retryable). -/
inductive StartEvent where
  | scannerSetup
  | installCatcher
  | setDispatcher
  | registerListener
  | scannerStart
  | cancelListener
  | armTracker
  | registerStopHook
  | raiseInitFailed
  | raiseNotReady
  deriving DecidableEq, Repr

/-- `BluetoothManager.async_start(scanning_mode)` as the trace of its
observable actions: setup failure raises `RuntimeError` before any listener
registration; start failure runs `self._cancel_device_detected()` and then
raises `ConfigEntryNotReady`. -/
def async_start (driver : ScannerDriver) : List StartEvent :=
  if !driver.setupOk then
    [StartEvent.scannerSetup, StartEvent.raiseInitFailed]
  else
    [StartEvent.scannerSetup, StartEvent.installCatcher,
      StartEvent.setDispatcher, StartEvent.registerListener] ++
    (if !driver.startOk then
      [StartEvent.scannerStart, StartEvent.cancelListener,
        StartEvent.raiseNotReady]
    else
      [StartEvent.scannerStart, StartEvent.armTracker,
        StartEvent.registerStopHook])

/-! ### Operation sequences on the unavailability map -/

/-- One public operation on the unavailability-subscription map: a
`async_track_unavailable` registration or one use of a returned unregister
handle. -/
inductive UnavailOp where
  | track (address : String) (cb : UnavailableCallback)
  | untrack (address : String) (cb : UnavailableCallback)
  deriving DecidableEq, Repr

/-- Apply a sequence of unavailability-map operations. -/
def applyUnavailOps (mgr : BluetoothManager) : List UnavailOp → BluetoothManager
  | [] => mgr
  | UnavailOp.track address cb :: rest =>
      applyUnavailOps (async_track_unavailable mgr cb address) rest
  | UnavailOp.untrack address cb :: rest =>
      applyUnavailOps (untrackUnavailable mgr cb address) rest

/-- `BluetoothManager.__init__`: empty cache, empty subscription lists,
empty history. -/
def initManager (integration_matchers : List BluetoothMatcher) : BluetoothManager :=
  { integration_matchers := integration_matchers, matched := [], callbacks := [],
    unavailable_callbacks := [], history := [] }

/-- Does a subscription entry fire for this (device, advertisement)?
(`matcher is None or _ble_device_matches(matcher, ...)`). -/
def entryMatches (device : BLEDevice) (advertisement_data : AdvertisementData)
    (entry : Callback × Option BluetoothCallbackMatcher) : Bool :=
  match entry.2 with
  | none => true
  | some m => _ble_device_matches m device advertisement_data

/-- Rewrite every subscription callback's `throws` flag according to `f`
(used to state that dispatch output is independent of which callbacks
raise). -/
def setCallbackThrows (f : Nat → Bool)
    (entries : List (Callback × Option BluetoothCallbackMatcher)) :
    List (Callback × Option BluetoothCallbackMatcher) :=
  entries.map (fun e => ({ id := e.1.id, throws := f e.1.id }, e.2))

/-- Rewrite every unavailability callback's `throws` flag according to `f`. -/
def setUnavailableThrows (f : Nat → Bool)
    (unavail : List (String × List UnavailableCallback)) :
    List (String × List UnavailableCallback) :=
  unavail.map (fun p => (p.1, p.2.map (fun cb => { id := cb.id, throws := f cb.id })))

/-! ### Concrete fixtures used by witnesses and counterexamples -/

/-- A device at address `AA` with no reported name. -/
def devAA : BLEDevice := { address := "AA", name := none, rssi := 0 }

/-- An advertisement carrying manufacturer data. -/
def advMfr : AdvertisementData :=
  { local_name := none, manufacturer_data := [(76, [1, 2])], service_data := [],
    service_uuids := [] }

/-- An advertisement carrying no manufacturer data. -/
def advPlain : AdvertisementData :=
  { local_name := none, manufacturer_data := [], service_data := [],
    service_uuids := [] }

/-- An integration matcher on manufacturer id 76. -/
def imMfr76 : BluetoothMatcher :=
  { domain := "dom", fields := { manufacturer_id := some 76 } }

/-- Subscriber callback handles. -/
def cbA : Callback := { id := 0, throws := false }

/-- A second subscriber callback handle. -/
def cbB : Callback := { id := 1, throws := false }

/-- Unavailability callback handles (the first one raises). -/
def ucbX : UnavailableCallback := { id := 10, throws := true }

/-- A non-raising unavailability callback handle. -/
def ucbY : UnavailableCallback := { id := 11, throws := false }

/-- A non-raising unavailability callback handle for a second address. -/
def ucbZ : UnavailableCallback := { id := 12, throws := false }

/-- C1 counterexample state: the cache already holds `("AA", false)`. -/
def mgrC1 : BluetoothManager :=
  { integration_matchers := [imMfr76], matched := [("AA", false)], callbacks := [],
    unavailable_callbacks := [], history := [] }

/-- C2 state: one integration matcher, one subscription, empty cache. -/
def mgrC2 : BluetoothManager :=
  { integration_matchers := [imMfr76], matched := [], callbacks := [(cbA, none)],
    unavailable_callbacks := [], history := [] }

/-- C3 counterexample state: history holds an entry under the empty-string
address. -/
def mgrC3a : BluetoothManager :=
  { integration_matchers := [], matched := [], callbacks := [],
    unavailable_callbacks := [], history := [("", (devAA, advPlain))] }

/-- C3 witness state: history holds an entry for address `AA`. -/
def mgrC3b : BluetoothManager :=
  { integration_matchers := [], matched := [], callbacks := [],
    unavailable_callbacks := [], history := [("AA", (devAA, advPlain))] }

/-- C4 witness state: two tracked addresses, with unavailability callbacks
(the first of which raises). -/
def mgrC4 : BluetoothManager :=
  { integration_matchers := [], matched := [], callbacks := [],
    unavailable_callbacks := [("X", [ucbX, ucbY]), ("Y", [ucbZ])],
    history := [("X", (devAA, advPlain)), ("Y", (devAA, advPlain))] }

/-- C6 counterexample state: two subscriptions already registered. -/
def mgrC6 : BluetoothManager :=
  { integration_matchers := [], matched := [], callbacks := [(cbA, none), (cbB, none)],
    unavailable_callbacks := [], history := [] }

/-- C8 counterexample device: a reported name distinct from the address. -/
def devC8 : BLEDevice := { address := "AD", name := some "NM", rssi := 0 }

/-- C8 counterexample advertisement: the local name is present but empty. -/
def advC8 : AdvertisementData :=
  { local_name := some "", manufacturer_data := [], service_data := [],
    service_uuids := [] }

/-- C8 counterexample matcher: local-name pattern equal to the device name. -/
def matcherC8 : BluetoothCallbackMatcher := { local_name := some "NM" }

/-- C8 witness matcher: the glob pattern from the spec. -/
def matcherC8w : BluetoothCallbackMatcher := { local_name := some "Switch*" }

/-- C8 witness device: effective name `OtherDevice`. -/
def devC8w : BLEDevice := { address := "AD", name := some "OtherDevice", rssi := 0 }

/-! ### Shared helper lemmas -/

/-- `findClose` consumes the span up to and including the closing `]`. -/
theorem findClose_rest_length :
    ∀ (cs body rest : List Char), findClose cs = some (body, rest) →
      rest.length < cs.length := by
  intro cs
  induction cs with
  | nil => intro body rest h; cases h
  | cons c t ih =>
      intro body rest h
      unfold findClose at h
      by_cases hc : c = ']'
      · rw [if_pos hc] at h
        cases h
        simp
      · rw [if_neg hc] at h
        rcases hfc : findClose t with _ | br
        · rw [hfc] at h; cases h
        · rw [hfc] at h
          cases h
          exact Nat.lt_trans (ih br.1 br.2 hfc) (by simp)

/-- The pattern rest returned by `parseClassCore` is strictly shorter than
its input. -/
theorem parseClassCore_rest_length (neg : Bool) (tl : List Char)
    (nbr : Bool × List Char × List Char) (h : parseClassCore neg tl = some nbr) :
    nbr.2.2.length < tl.length := by
  rcases tl with _ | ⟨c, rest2⟩
  · exact Option.noConfusion h
  · simp only [parseClassCore] at h
    by_cases hc : c = ']'
    · rw [if_pos hc] at h
      rcases hfc : findClose rest2 with _ | br
      · rw [hfc] at h; exact Option.noConfusion h
      · rw [hfc] at h
        simp only [Option.map_some'] at h
        cases h
        have hb := findClose_rest_length rest2 br.1 br.2 hfc
        simp only [List.length_cons]
        omega
    · rw [if_neg hc] at h
      rcases hfc : findClose (c :: rest2) with _ | br
      · rw [hfc] at h; exact Option.noConfusion h
      · rw [hfc] at h
        simp only [Option.map_some'] at h
        cases h
        have hb := findClose_rest_length (c :: rest2) br.1 br.2 hfc
        simp only [List.length_cons] at hb ⊢
        omega

/-- The pattern rest returned by `parseClass` is no longer than its input. -/
theorem parseClass_rest_length (ps : List Char) (nbr : Bool × List Char × List Char)
    (h : parseClass ps = some nbr) : nbr.2.2.length ≤ ps.length := by
  rcases ps with _ | ⟨c0, rest0⟩
  · exact Option.noConfusion h
  · simp only [parseClass] at h
    by_cases h0 : c0 = '!'
    · rw [if_pos h0] at h
      have hlt := parseClassCore_rest_length true rest0 nbr h
      simp only [List.length_cons]
      omega
    · rw [if_neg h0] at h
      have hlt := parseClassCore_rest_length false (c0 :: rest0) nbr h
      simp only [List.length_cons] at hlt ⊢
      omega

/-- The tokenizer's fuel is irrelevant as soon as it exceeds the pattern
length: every step consumes at least one pattern character. -/
theorem tokenizeAux_congr :
    ∀ (f g : Nat) (ps : List Char), ps.length < f → ps.length < g →
      tokenizeAux f ps = tokenizeAux g ps := by
  intro f
  induction f with
  | zero => intro g ps hf; cases hf
  | succ f ih =>
      intro g ps hf hg
      rcases g with _ | g
      · cases hg
      · rcases ps with _ | ⟨c, t⟩
        · rfl
        · simp only [List.length_cons, Nat.succ_lt_succ_iff] at hf hg
          simp only [tokenizeAux]
          by_cases hs : c = '*'
          · rw [if_pos hs, if_pos hs, ih g t hf hg]
          · rw [if_neg hs, if_neg hs]
            by_cases hq : c = '?'
            · rw [if_pos hq, if_pos hq, ih g t hf hg]
            · rw [if_neg hq, if_neg hq]
              by_cases hb : c = '['
              · rw [if_pos hb, if_pos hb]
                rcases hpc : parseClass t with _ | nbr
                · simp only [hpc]
                  rw [ih g t hf hg]
                · simp only [hpc]
                  have hr := parseClass_rest_length t nbr hpc
                  rw [ih g nbr.2.2 (by omega) (by omega)]
              · rw [if_neg hb, if_neg hb, ih g t hf hg]

/-- Erasing a freshly appended element that was not present before restores
the original list (`list.remove` removes the first occurrence). -/
theorem erase_append_singleton_of_not_mem {α : Type} [BEq α] [LawfulBEq α]
    {l : List α} {e : α} (h : e ∉ l) : (l ++ [e]).erase e = l := by
  induction l with
  | nil => simp
  | cons a t ih =>
      have h1 : ¬(e = a) := fun hea => h (by rw [hea]; exact List.mem_cons_self a t)
      have ht : e ∉ t := fun hm => h (List.mem_cons_of_mem a hm)
      have hne : ((a == e) = false) := by
        rw [beq_eq_false_iff_ne]
        exact fun hae => h1 hae.symm
      simp [List.erase_cons, hne, ih ht]

/-- `async_register_callback` only appends the entry to the subscription
list; the rest of the manager state is untouched. -/
theorem async_register_callback_state (mgr : BluetoothManager) (cb : Callback)
    (matcher : Option BluetoothCallbackMatcher) :
    (async_register_callback mgr cb matcher).state =
      { mgr with callbacks := mgr.callbacks ++ [(cb, matcher)] } := by
  rcases matcher with _ | m
  · rfl
  · rcases hma : m.address with _ | a
    · simp [async_register_callback, hma]
    · rcases hlk : lookupHistory mgr.history a with _ | da
      · simp [async_register_callback, hma, hlk]
      · simp only [async_register_callback, hma, hlk]
        split <;> rfl

/-- The freshly inserted key is always retained (the capacity is positive). -/
theorem lruInsert_mem_self (l : List MatchKey) (k : MatchKey) :
    k ∈ lruInsert l k := by
  unfold lruInsert
  have h : MAX_REMEMBER_ADDRESSES = 2047 + 1 := rfl
  rw [h, List.take_succ_cons]
  exact List.mem_cons_self _ _

/-- An insert adds no key other than the inserted one. -/
theorem lruInsert_subset (l : List MatchKey) (k : MatchKey) :
    ∀ x ∈ lruInsert l k, x ∈ l ∨ x = k := by
  intro x hx
  unfold lruInsert at hx
  have hx2 : x ∈ k :: l.erase k := List.take_subset _ _ hx
  rcases List.mem_cons.mp hx2 with h | h
  · right; exact h
  · left; exact List.mem_of_mem_erase h

/-- Closed-form characterization of one `_device_detected` run. -/
theorem device_detected_eq (mgr : BluetoothManager) (device : BLEDevice)
    (advertisement_data : AdvertisementData) :
    _device_detected mgr device advertisement_data =
      (let hasM : Bool := !advertisement_data.manufacturer_data.isEmpty
       let md : Option (List String) :=
         if !(mgr.matched.contains (device.address, true)) &&
             !(mgr.matched.contains (device.address, hasM)) then
           some (((mgr.integration_matchers.filter
              (fun m => _ble_device_matches m.fields device advertisement_data)).map
                BluetoothMatcher.domain).dedup)
         else none
       let ds := md.getD []
       let t := dispatchCallbacks device advertisement_data mgr.callbacks none
       let si :=
         match t.1 with
         | some si => si
         | none =>
             BluetoothServiceInfoBleak.from_advertisement device
               advertisement_data SOURCE_LOCAL
       { state := { mgr with matched :=
            (if ds.isEmpty then mgr.matched
             else lruInsert mgr.matched (device.address, hasM)) },
         matched_domains := md,
         callbackPassRan := !(ds.isEmpty && mgr.callbacks.isEmpty),
         invocations := if ds.isEmpty && mgr.callbacks.isEmpty then [] else t.2.1,
         caught := if ds.isEmpty && mgr.callbacks.isEmpty then [] else t.2.2,
         flows :=
           (if ds.isEmpty && mgr.callbacks.isEmpty then []
            else if ds.isEmpty then []
            else ds.map (fun domain => (domain, si))) }) := by
  simp only [_device_detected]
  cases h1 : (!(mgr.matched.contains (device.address, true)) &&
      !(mgr.matched.contains (device.address,
        !advertisement_data.manufacturer_data.isEmpty)))
  · cases h3 : mgr.callbacks.isEmpty <;> simp [h1, h3]
  · cases h2 : (((mgr.integration_matchers.filter
        (fun m => _ble_device_matches m.fields device advertisement_data)).map
          BluetoothMatcher.domain).dedup).isEmpty
    · cases h3 : mgr.callbacks.isEmpty <;> simp [h1, h2, h3]
    · cases h3 : mgr.callbacks.isEmpty <;> simp [h1, h2, h3]

/-- `_device_detected` never changes the subscription list, the history or
the unavailability map. -/
theorem device_detected_state_fields (mgr : BluetoothManager) (device : BLEDevice)
    (advertisement_data : AdvertisementData) :
    ((_device_detected mgr device advertisement_data).state.callbacks =
      mgr.callbacks) ∧
    ((_device_detected mgr device advertisement_data).state.history =
      mgr.history) ∧
    ((_device_detected mgr device advertisement_data).state.unavailable_callbacks =
      mgr.unavailable_callbacks) ∧
    ((_device_detected mgr device advertisement_data).state.integration_matchers =
      mgr.integration_matchers) := by
  rw [device_detected_eq]
  exact ⟨rfl, rfl, rfl, rfl⟩

/-- With `(address, true)` cached, the intake path skips the matcher
evaluation entirely and leaves the state unchanged. -/
theorem device_detected_skip (mgr : BluetoothManager) (device : BLEDevice)
    (advertisement_data : AdvertisementData)
    (h : mgr.matched.contains (device.address, true) = true) :
    ((_device_detected mgr device advertisement_data).matched_domains = none) ∧
    ((_device_detected mgr device advertisement_data).state = mgr) ∧
    ((_device_detected mgr device advertisement_data).callbackPassRan =
      !mgr.callbacks.isEmpty) := by
  rw [device_detected_eq]
  simp only [h]
  simp

/-! ### C7 — address-only matcher -/

/-- C7: for a matcher whose only set field is `address`, the match predicate
returns true iff the device address equals the matcher address, whatever the
advertisement contents. -/
theorem matches_address_only_iff (a : String) (device : BLEDevice)
    (advertisement_data : AdvertisementData) :
    (_ble_device_matches { address := some a } device advertisement_data = true) ↔
      device.address = a := by
  simp [_ble_device_matches]

/-! ### C8 — local-name glob matching -/

/-- C8 (amended): with a local-name pattern set, the predicate glob-matches
the pattern against the effective name — the advertisement local name if
present and non-empty, else the device name if present and non-empty, else
the device address — and a glob mismatch forces a non-match. -/
theorem matches_local_name_glob_mismatch (matcher : BluetoothCallbackMatcher)
    (device : BLEDevice) (advertisement_data : AdvertisementData) (pat : String)
    (hpat : matcher.local_name = some pat)
    (hmiss : fnmatch
        (strOr advertisement_data.local_name (strOr device.name device.address))
        pat = false) :
    _ble_device_matches matcher device advertisement_data = false := by
  simp [_ble_device_matches, hpat, hmiss]

/-- C8 witness: pattern `Switch*` against effective name `OtherDevice`
is a glob mismatch, so the predicate returns false. -/
theorem matches_local_name_glob_mismatch_witness :
    _ble_device_matches matcherC8w devC8w advPlain = false :=
  matches_local_name_glob_mismatch matcherC8w devC8w advPlain "Switch*"
    (by decide) (by decide)

/-- C8 counterexample: the advertisement local name is present (but empty),
the pattern does not glob-match that present local name, yet the predicate
returns true — the source falls through an empty local name to the device
name (`advertisement_data.local_name or device.name or device.address`),
contradicting the claim read with effective name = the local name whenever
it is present. -/
theorem matches_local_name_empty_counterexample :
    advC8.local_name = some "" ∧ fnmatch "" "NM" = false ∧
      _ble_device_matches matcherC8 devC8 advC8 = true := by
  refine ⟨rfl, by decide, by decide⟩

/-! ### C9 — start error routing -/

/-- C9: a driver failure in scanner setup surfaces as the hard
`RuntimeError` with no listener ever registered, while a driver failure in
the start-listening call surfaces as the retryable `ConfigEntryNotReady`
with the listener registration of this attempt cancelled before the raise. -/
theorem async_start_error_modes (driver : ScannerDriver) :
    ((StartEvent.raiseInitFailed ∈ async_start driver) ↔ driver.setupOk = false) ∧
    ((StartEvent.raiseNotReady ∈ async_start driver) ↔
      (driver.setupOk = true ∧ driver.startOk = false)) ∧
    (driver.setupOk = false → StartEvent.registerListener ∉ async_start driver) ∧
    (driver.setupOk = true → driver.startOk = false →
      async_start driver =
        [StartEvent.scannerSetup, StartEvent.installCatcher,
          StartEvent.setDispatcher, StartEvent.registerListener,
          StartEvent.scannerStart, StartEvent.cancelListener,
          StartEvent.raiseNotReady]) := by
  obtain ⟨su, st⟩ := driver
  cases su <;> cases st <;> decide

/-- C9 witness: the start-failure driver takes the retryable path with the
listener cancelled before the failure is surfaced. -/
theorem async_start_error_modes_witness :
    async_start { setupOk := true, startOk := false } =
      [StartEvent.scannerSetup, StartEvent.installCatcher,
        StartEvent.setDispatcher, StartEvent.registerListener,
        StartEvent.scannerStart, StartEvent.cancelListener,
        StartEvent.raiseNotReady] :=
  (async_start_error_modes { setupOk := true, startOk := false }).2.2.2 rfl rfl

/-! ### C10 — the unavailability map never holds an empty list -/

/-- The C10 invariant is preserved by one `async_track_unavailable`. -/
theorem track_unavailable_preserves (mgr : BluetoothManager)
    (cb : UnavailableCallback) (address : String)
    (h : ∀ p ∈ mgr.unavailable_callbacks, p.2 ≠ []) :
    ∀ p ∈ (async_track_unavailable mgr cb address).unavailable_callbacks,
      p.2 ≠ [] := by
  intro p hp
  unfold async_track_unavailable at hp
  by_cases hf : ((mgr.unavailable_callbacks.find? (fun p => p.1 == address)).isSome) = true
  · rw [if_pos hf] at hp
    simp only [List.mem_map] at hp
    obtain ⟨q, hq, hpq⟩ := hp
    by_cases hqa : (q.1 == address) = true
    · rw [if_pos hqa] at hpq
      subst hpq
      simp
    · rw [if_neg hqa] at hpq
      subst hpq
      exact h q hq
  · rw [if_neg hf] at hp
    rcases List.mem_append.mp hp with hq | hq
    · exact h p hq
    · simp only [List.mem_singleton] at hq
      subst hq
      simp

/-- The C10 invariant is preserved by one use of an unregister handle. -/
theorem untrack_unavailable_preserves (mgr : BluetoothManager)
    (cb : UnavailableCallback) (address : String)
    (h : ∀ p ∈ mgr.unavailable_callbacks, p.2 ≠ []) :
    ∀ p ∈ (untrackUnavailable mgr cb address).unavailable_callbacks,
      p.2 ≠ [] := by
  intro p hp
  unfold untrackUnavailable at hp
  by_cases he : ((lookupUnavailable mgr.unavailable_callbacks address).erase cb).isEmpty = true
  · rw [if_pos he] at hp
    exact h p (List.mem_of_mem_filter hp)
  · rw [if_neg he] at hp
    simp only [List.mem_map] at hp
    obtain ⟨q, hq, hpq⟩ := hp
    by_cases hqa : (q.1 == address) = true
    · rw [if_pos hqa] at hpq
      subst hpq
      simpa [List.isEmpty_iff] using he
    · rw [if_neg hqa] at hpq
      subst hpq
      exact h q hq

/-- The C10 invariant is preserved by any operation sequence. -/
theorem applyUnavailOps_preserves (ops : List UnavailOp) :
    ∀ mgr : BluetoothManager, (∀ p ∈ mgr.unavailable_callbacks, p.2 ≠ []) →
      ∀ p ∈ (applyUnavailOps mgr ops).unavailable_callbacks, p.2 ≠ [] := by
  induction ops with
  | nil => intro mgr h; exact h
  | cons op rest ih =>
      intro mgr h
      cases op with
      | track address cb =>
          exact ih _ (track_unavailable_preserves mgr cb address h)
      | untrack address cb =>
          exact ih _ (untrack_unavailable_preserves mgr cb address h)

/-- C10: after any sequence of track-unavailable registrations and uses of
their unregister handles starting from a fresh manager, every address
present in the unavailability-subscription map has a non-empty callback
list. -/
theorem unavailable_map_no_empty_lists (ims : List BluetoothMatcher)
    (ops : List UnavailOp) :
    ∀ p ∈ (applyUnavailOps (initManager ims) ops).unavailable_callbacks,
      p.2 ≠ [] :=
  applyUnavailOps_preserves ops (initManager ims) (by intro p hp; cases hp)

/-- C10 witness: after one registration the map holds the entry
`("X", [ucbX])`, whose list the theorem shows non-empty. -/
theorem unavailable_map_no_empty_lists_witness :
    ([ucbX] : List UnavailableCallback) ≠ [] :=
  unavailable_map_no_empty_lists [] [UnavailOp.track "X" ucbX]
    ("X", [ucbX]) (by decide)

/-! ### C3 — immediate replay on registration -/

/-- C3 (amended): registration always appends the entry; when the matcher
carries a non-empty address with a history entry, the callback is invoked
exactly once before returning with a ServiceInfo built from that entry;
with no address, or no history entry for it, there is no immediate
invocation; and a raise during the replay is caught (recorded in
`replayCaught`, never propagated — the registration still completes). -/
theorem register_callback_replay_spec (mgr : BluetoothManager) (cb : Callback)
    (matcher : Option BluetoothCallbackMatcher) :
    ((async_register_callback mgr cb matcher).state.callbacks =
      mgr.callbacks ++ [(cb, matcher)]) ∧
    (∀ (m : BluetoothCallbackMatcher) (a : String) (d : BLEDevice)
        (ad : AdvertisementData),
      matcher = some m → m.address = some a → a ≠ "" →
      lookupHistory mgr.history a = some (d, ad) →
      (async_register_callback mgr cb matcher).replay =
        [(cb.id, BluetoothServiceInfoBleak.from_advertisement d ad SOURCE_LOCAL)]) ∧
    (matcher.bind (fun m => m.address) = none →
      (async_register_callback mgr cb matcher).replay = []) ∧
    (∀ a : String, matcher.bind (fun m => m.address) = some a →
      lookupHistory mgr.history a = none →
      (async_register_callback mgr cb matcher).replay = []) ∧
    ((async_register_callback mgr cb matcher).replayCaught =
      (cb.throws && !(async_register_callback mgr cb matcher).replay.isEmpty)) := by
  refine ⟨?_, ?_, ?_, ?_, ?_⟩
  · rw [async_register_callback_state]
  · intro m a d ad h1 h2 h3 h4
    subst h1
    simp [async_register_callback, h2, h3, h4]
  · intro h
    rcases matcher with _ | m
    · rfl
    · simp only [Option.bind] at h
      simp [async_register_callback, h]
  · intro a h1 h2
    rcases matcher with _ | m
    · rfl
    · simp only [Option.bind] at h1
      by_cases ha : a = ""
      · simp [async_register_callback, h1, ha]
      · simp [async_register_callback, h1, ha, h2]
  · rcases matcher with _ | m
    · simp [async_register_callback]
    · rcases hma : m.address with _ | a
      · simp [async_register_callback, hma]
      · by_cases ha : a = ""
        · simp [async_register_callback, hma, ha]
        · rcases hlk : lookupHistory mgr.history a with _ | da
          · simp [async_register_callback, hma, ha, hlk]
          · simp only [async_register_callback, hma, ha, hlk, invokeCallback]
            cases hcb : cb.throws <;> simp [hcb]

/-- C3 witness: with history for `AA`, registering on `AA` replays exactly
once with the ServiceInfo built from the stored pair. -/
theorem register_callback_replay_spec_witness :
    (async_register_callback mgrC3b cbA
        (some { address := some "AA" })).replay =
      [(cbA.id,
        BluetoothServiceInfoBleak.from_advertisement devAA advPlain SOURCE_LOCAL)] :=
  (register_callback_replay_spec mgrC3b cbA
      (some { address := some "AA" })).2.1
    { address := some "AA" } "AA" devAA advPlain rfl rfl (by decide) (by decide)

/-- C3 counterexample: the matcher carries the (empty-string) address `""`
and history holds an entry under `""`, yet no immediate invocation happens —
the source's truthiness guard `(address := matcher.get(ADDRESS))` treats the
empty string as falsy, contradicting the claim for this address. -/
theorem register_empty_address_counterexample :
    ({ address := some "" } : BluetoothCallbackMatcher).address = some "" ∧
    (lookupHistory mgrC3a.history "").isSome = true ∧
    (async_register_callback mgrC3a cbA (some { address := some "" })).replay = [] := by
  exact ⟨rfl, by decide, by decide⟩

/-! ### C6 — register then unregister round trip -/

/-- C6 (amended): when the (callback, matcher) pair is not already
registered, registering it and immediately calling the unregister handle
restores the manager state exactly, hence identical dispatch behavior on
every subsequent advertisement event. -/
theorem register_unregister_roundtrip (mgr : BluetoothManager) (cb : Callback)
    (matcher : Option BluetoothCallbackMatcher)
    (h : (cb, matcher) ∉ mgr.callbacks) :
    (unregisterCallback (async_register_callback mgr cb matcher).state
        (cb, matcher) = mgr) ∧
    (∀ (device : BLEDevice) (advertisement_data : AdvertisementData),
      _device_detected
          (unregisterCallback (async_register_callback mgr cb matcher).state
            (cb, matcher)) device advertisement_data =
        _device_detected mgr device advertisement_data) := by
  have hstate : unregisterCallback (async_register_callback mgr cb matcher).state
      (cb, matcher) = mgr := by
    rw [async_register_callback_state]
    unfold unregisterCallback
    simp only
    rw [erase_append_singleton_of_not_mem h]
  exact ⟨hstate, fun device advertisement_data => by rw [hstate]⟩

/-- C6 witness: a fresh registration round-trips to the original manager. -/
theorem register_unregister_roundtrip_witness :
    unregisterCallback
        (async_register_callback mgrC6 { id := 5, throws := false } none).state
        ({ id := 5, throws := false }, none) = mgrC6 :=
  (register_unregister_roundtrip mgrC6 { id := 5, throws := false } none
    (by decide)).1

/-! ### C1 — cache-key policy of the intake path -/

/-- The full matcher evaluation runs iff neither `(address, true)` nor
`(address, has-mfr-data-in-this-advertisement)` is cached. -/
theorem device_detected_ran_iff (mgr : BluetoothManager) (device : BLEDevice)
    (advertisement_data : AdvertisementData) :
    (_device_detected mgr device advertisement_data).matched_domains.isSome =
      (!(mgr.matched.contains (device.address, true)) &&
       !(mgr.matched.contains (device.address,
          !advertisement_data.manufacturer_data.isEmpty))) := by
  rw [device_detected_eq]
  cases h1 : mgr.matched.contains (device.address, true) <;>
    cases h2 : mgr.matched.contains (device.address,
      !advertisement_data.manufacturer_data.isEmpty) <;>
    simp [h1, h2] <;> simpa using h2

/-- The new cache contents in closed form. -/
theorem device_detected_matched_eq (mgr : BluetoothManager) (device : BLEDevice)
    (advertisement_data : AdvertisementData) :
    (_device_detected mgr device advertisement_data).state.matched =
      (if ((_device_detected mgr device advertisement_data).matched_domains.getD
          []).isEmpty then mgr.matched
       else lruInsert mgr.matched (device.address,
          !advertisement_data.manufacturer_data.isEmpty)) := by
  rw [device_detected_eq]

/-- C1 (amended): the intake path checks the cache keys `(address, true)`
and `(address, has-mfr-data-in-this-advertisement)`; the full
integration-matcher evaluation runs iff neither of those two keys is
present; and when at least one matcher matched, exactly the key
`(address, has-mfr-data-in-this-advertisement)` is recorded (the cache
gains no other key), while a matchless or skipped run records nothing. -/
theorem device_detected_cache_policy (mgr : BluetoothManager)
    (device : BLEDevice) (advertisement_data : AdvertisementData) :
    ((_device_detected mgr device advertisement_data).matched_domains.isSome =
      (!(mgr.matched.contains (device.address, true)) &&
       !(mgr.matched.contains (device.address,
          !advertisement_data.manufacturer_data.isEmpty)))) ∧
    ((_device_detected mgr device advertisement_data).matched_domains.getD []
        ≠ [] →
      ((device.address, !advertisement_data.manufacturer_data.isEmpty) ∈
          (_device_detected mgr device advertisement_data).state.matched ∧
        ∀ k ∈ (_device_detected mgr device advertisement_data).state.matched,
          k ∈ mgr.matched ∨
            k = (device.address, !advertisement_data.manufacturer_data.isEmpty))) ∧
    ((_device_detected mgr device advertisement_data).matched_domains.getD []
        = [] →
      (_device_detected mgr device advertisement_data).state.matched =
        mgr.matched) := by
  refine ⟨device_detected_ran_iff mgr device advertisement_data, ?_, ?_⟩
  · intro hne
    have hm := device_detected_matched_eq mgr device advertisement_data
    have hL : ((_device_detected mgr device advertisement_data).matched_domains.getD
        []).isEmpty = false := by
      cases hLe : ((_device_detected mgr device
          advertisement_data).matched_domains.getD []).isEmpty
      · rfl
      · exact absurd (by simpa [List.isEmpty_iff] using hLe) hne
    rw [hL] at hm
    simp only [Bool.false_eq_true, if_false] at hm
    rw [hm]
    exact ⟨lruInsert_mem_self _ _, lruInsert_subset _ _⟩
  · intro heq
    have hm := device_detected_matched_eq mgr device advertisement_data
    rw [heq] at hm
    simpa using hm

/-- C1 counterexample: the cache holds only `("AA", false)` and an
advertisement from `AA` WITH manufacturer data arrives; the full evaluation
runs even though `("AA", false)` is present — the source checks
`(address, true)` and `(address, current-shape)`, not `(address, false)`,
refuting the claimed iff. -/
theorem device_detected_both_keys_counterexample :
    (advMfr.manufacturer_data ≠ []) ∧
    devAA.address = "AA" ∧
    mgrC1.matched.contains ("AA", false) = true ∧
    (_device_detected mgrC1 devAA advMfr).matched_domains.isSome = true ∧
    ¬(((_device_detected mgrC1 devAA advMfr).matched_domains.isSome = true) ↔
      (mgrC1.matched.contains ("AA", true) = false ∧
        mgrC1.matched.contains ("AA", false) = false)) := by
  decide

/-- C1 witness: a matching run records the key `("AA", true)`. -/
theorem device_detected_cache_policy_witness :
    (("AA", true) : MatchKey) ∈
      (_device_detected mgrC2 devAA advMfr).state.matched :=
  ((device_detected_cache_policy mgrC2 devAA advMfr).2.1 (by decide)).1

/-! ### C2 — the cache short-circuits, dispatch still runs -/

/-- While `(A, true)` is cached, a run of advertisements from `A` never
re-evaluates the matchers, never changes the state, and reaches the
dispatch pass whenever the registry is non-empty. -/
theorem processEvents_skip (A : String) :
    ∀ (events : List (BLEDevice × AdvertisementData)) (s : BluetoothManager),
      (∀ e ∈ events, e.1.address = A) →
      s.matched.contains (A, true) = true →
      ((∀ r ∈ (processEvents s events).2,
        r.matched_domains = none ∧ r.callbackPassRan = !s.callbacks.isEmpty) ∧
      (processEvents s events).1 = s) := by
  intro events
  induction events with
  | nil =>
      intro s _ _
      exact ⟨fun r hr => absurd hr (by simp [processEvents]), rfl⟩
  | cons e rest ih =>
      intro s hsame hs
      obtain ⟨ed, ea⟩ := e
      have he1 : ed.address = A := hsame (ed, ea) (List.mem_cons_self _ _)
      have hskip := device_detected_skip s ed ea (by rw [he1]; exact hs)
      have hstate : (_device_detected s ed ea).state = s := hskip.2.1
      have hrest := ih s (fun x hx => hsame x (List.mem_cons_of_mem _ hx)) hs
      constructor
      · intro r hr
        simp only [processEvents] at hr
        rcases List.mem_cons.mp hr with hhead | htail
        · subst hhead
          exact ⟨hskip.1, hskip.2.2⟩
        · rw [hstate] at htail
          exact hrest.1 r htail
      · simp only [processEvents]
        rw [hstate]
        exact hrest.2

/-- C2: once an advertisement with manufacturer data from one address
produces at least one matched domain, no later advertisement from that
address (with or without manufacturer data) re-triggers the full
integration-matcher evaluation, while the callback-dispatch pass still runs
for every later advertisement given a non-empty registry. -/
theorem cache_short_circuit_after_match (mgr : BluetoothManager)
    (d0 : BLEDevice) (a0 : AdvertisementData)
    (events : List (BLEDevice × AdvertisementData))
    (hmfr : a0.manufacturer_data ≠ [])
    (hmatch : (_device_detected mgr d0 a0).matched_domains.getD [] ≠ [])
    (hsame : ∀ e ∈ events, e.1.address = d0.address)
    (hsubs : mgr.callbacks ≠ []) :
    ∀ r ∈ (processEvents (_device_detected mgr d0 a0).state events).2,
      r.matched_domains = none ∧ r.callbackPassRan = true := by
  have hM : (!a0.manufacturer_data.isEmpty) = true := by
    rcases hq : a0.manufacturer_data with _ | _
    · exact absurd hq hmfr
    · simp
  have hkey : ((d0.address, true) : MatchKey) ∈
      (_device_detected mgr d0 a0).state.matched := by
    have h := ((device_detected_cache_policy mgr d0 a0).2.1 hmatch).1
    rw [hM] at h
    exact h
  have hcb : (_device_detected mgr d0 a0).state.callbacks = mgr.callbacks :=
    (device_detected_state_fields mgr d0 a0).1
  have hne : ((_device_detected mgr d0 a0).state.callbacks.isEmpty) = false := by
    rw [hcb]
    rcases hq : mgr.callbacks with _ | _
    · exact absurd hq hsubs
    · simp
  have hmain := processEvents_skip d0.address events
    (_device_detected mgr d0 a0).state hsame (by simpa using hkey)
  intro r hr
  have h := hmain.1 r hr
  rw [hne] at h
  exact ⟨h.1, h.2⟩

/-- C2 witness: after `mgrC2` matches the manufacturer-data advertisement
from `AA`, a following plain advertisement from `AA` skips evaluation but
still reaches the dispatch pass. -/
theorem cache_short_circuit_after_match_witness :
    (_device_detected (_device_detected mgrC2 devAA advMfr).state devAA
        advPlain).matched_domains = none ∧
    (_device_detected (_device_detected mgrC2 devAA advMfr).state devAA
        advPlain).callbackPassRan = true := by
  have h := cache_short_circuit_after_match mgrC2 devAA advMfr
    [(devAA, advPlain)] (by decide) (by decide) (by decide) (by decide)
  exact h (_device_detected (_device_detected mgrC2 devAA advMfr).state devAA
    advPlain) (by simp [processEvents])

/-! ### C5 — per-callback fault isolation during dispatch -/

/-- The dispatch loop invokes exactly the matching subscriptions, in order,
whatever each callback's raise behavior. -/
theorem dispatchCallbacks_invocations_ids (device : BLEDevice)
    (advertisement_data : AdvertisementData) :
    ∀ (entries : List (Callback × Option BluetoothCallbackMatcher))
      (si0 : Option BluetoothServiceInfoBleak),
      (dispatchCallbacks device advertisement_data entries si0).2.1.map Prod.fst =
        (entries.filter (entryMatches device advertisement_data)).map
          (fun e => e.1.id) := by
  intro entries
  induction entries with
  | nil => intro si0; rfl
  | cons e rest ih =>
      intro si0
      obtain ⟨cb, m⟩ := e
      simp only [dispatchCallbacks]
      cases hm : (match m with
        | none => true
        | some mm => _ble_device_matches mm device advertisement_data)
      · simp [hm, entryMatches, ih]
      · simp [hm, entryMatches, ih]

/-- Rewriting the `throws` flags changes neither the lazily built
ServiceInfo nor the invocation list (every raise is caught in place). -/
theorem dispatchCallbacks_setThrows (device : BLEDevice)
    (advertisement_data : AdvertisementData) (f : Nat → Bool) :
    ∀ (entries : List (Callback × Option BluetoothCallbackMatcher))
      (si0 : Option BluetoothServiceInfoBleak),
      ((dispatchCallbacks device advertisement_data
          (setCallbackThrows f entries) si0).1 =
        (dispatchCallbacks device advertisement_data entries si0).1) ∧
      ((dispatchCallbacks device advertisement_data
          (setCallbackThrows f entries) si0).2.1 =
        (dispatchCallbacks device advertisement_data entries si0).2.1) := by
  intro entries
  induction entries with
  | nil => intro si0; exact ⟨rfl, rfl⟩
  | cons e rest ih =>
      intro si0
      obtain ⟨cb, m⟩ := e
      have ih1 := fun s => (ih s).1
      have ih2 := fun s => (ih s).2
      have hsc : setCallbackThrows f ((cb, m) :: rest) =
          ({ id := cb.id, throws := f cb.id }, m) :: setCallbackThrows f rest := rfl
      rw [hsc]
      simp only [dispatchCallbacks]
      cases hm : (match m with
        | none => true
        | some mm => _ble_device_matches mm device advertisement_data)
      · simp [hm, ih1, ih2]
      · simp [hm, ih1, ih2]

/-- `setCallbackThrows` preserves emptiness of the registry. -/
theorem setCallbackThrows_isEmpty (f : Nat → Bool)
    (entries : List (Callback × Option BluetoothCallbackMatcher)) :
    (setCallbackThrows f entries).isEmpty = entries.isEmpty := by
  cases entries <;> simp [setCallbackThrows]

/-- Projecting the first components back out of a constant pairing. -/
theorem map_fst_pair {α β : Type} (L : List α) (x : β) :
    (L.map (fun d => (d, x))).map Prod.fst = L := by
  induction L with
  | nil => rfl
  | cons a t ih => simp [ih]

/-- C5: during dispatch of one advertisement event, raises inside
subscriber callbacks are caught in place: the invocation list and the
discovery-flow requests are unchanged under any assignment of raise
behavior, every matching subscription is invoked (in registration order),
and a flow is issued for exactly the matched domains. -/
theorem device_detected_callback_isolation (mgr : BluetoothManager)
    (device : BLEDevice) (advertisement_data : AdvertisementData)
    (f : Nat → Bool) :
    ((_device_detected
        { mgr with callbacks := setCallbackThrows f mgr.callbacks }
        device advertisement_data).invocations =
      (_device_detected mgr device advertisement_data).invocations) ∧
    ((_device_detected
        { mgr with callbacks := setCallbackThrows f mgr.callbacks }
        device advertisement_data).flows =
      (_device_detected mgr device advertisement_data).flows) ∧
    ((_device_detected mgr device advertisement_data).invocations.map Prod.fst =
      (mgr.callbacks.filter (entryMatches device advertisement_data)).map
        (fun e => e.1.id)) ∧
    ((_device_detected mgr device advertisement_data).flows.map Prod.fst =
      (_device_detected mgr device advertisement_data).matched_domains.getD []) := by
  have hthr := dispatchCallbacks_setThrows device advertisement_data f
    mgr.callbacks none
  have hids := dispatchCallbacks_invocations_ids device advertisement_data
    mgr.callbacks none
  have hemp := setCallbackThrows_isEmpty f mgr.callbacks
  refine ⟨?_, ?_, ?_, ?_⟩
  · rw [device_detected_eq mgr device advertisement_data,
      device_detected_eq
        { mgr with callbacks := setCallbackThrows f mgr.callbacks }
        device advertisement_data]
    dsimp only
    rw [hemp, hthr.2]
  · rw [device_detected_eq mgr device advertisement_data,
      device_detected_eq
        { mgr with callbacks := setCallbackThrows f mgr.callbacks }
        device advertisement_data]
    dsimp only
    rw [hemp, hthr.1]
  · rw [device_detected_eq mgr device advertisement_data]
    dsimp only
    cases h3 : mgr.callbacks.isEmpty
    · simp [h3, hids]
    · have h3e : mgr.callbacks = [] := by simpa [List.isEmpty_iff] using h3
      simp [h3e, dispatchCallbacks]
  · rw [device_detected_eq mgr device advertisement_data]
    dsimp only
    cases h1 : mgr.matched.contains (device.address, true) <;>
      cases h2 : mgr.matched.contains (device.address,
        !advertisement_data.manufacturer_data.isEmpty) <;>
      cases h4 : (((mgr.integration_matchers.filter
          (fun m => _ble_device_matches m.fields device advertisement_data)).map
            BluetoothMatcher.domain).dedup).isEmpty <;>
      cases h3 : mgr.callbacks.isEmpty <;>
      simp_all [map_fst_pair, List.isEmpty_iff] <;>
      rw [if_neg (by
        intro hall
        obtain ⟨x, hx, hmx⟩ := h4
        rw [hall x hx] at hmx
        exact Bool.noConfusion hmx), map_fst_pair]

/-! ### C4 — the availability tracker tick -/

/-- The sweep deletes exactly the entries of the disappeared addresses. -/
theorem sweepDisappeared_hist (unavail : List (String × List UnavailableCallback)) :
    ∀ (ds : List String) (hist : List (String × (BLEDevice × AdvertisementData))),
      (sweepDisappeared unavail hist ds).1 =
        hist.filter (fun p => !(ds.contains p.1)) := by
  intro ds
  induction ds with
  | nil => intro hist; simp [sweepDisappeared]
  | cons a rest ih =>
      intro hist
      simp only [sweepDisappeared]
      rw [ih, List.filter_filter]
      congr 1
      funext x
      simp only [List.contains_cons, bne]
      cases hxa : (x.1 == a) <;>
        cases hxr : rest.contains x.1 <;>
        rfl

/-- The sweep invokes, per disappeared address in order, exactly the
registered unavailability callbacks in registration order. -/
theorem sweepDisappeared_invocations
    (unavail : List (String × List UnavailableCallback)) :
    ∀ (ds : List String) (hist : List (String × (BLEDevice × AdvertisementData))),
      (sweepDisappeared unavail hist ds).2.1 =
        ds.flatMap (fun a =>
          (lookupUnavailable unavail a).map (fun cb => (a, cb.id))) := by
  intro ds
  induction ds with
  | nil => intro hist; simp [sweepDisappeared]
  | cons a rest ih =>
      intro hist
      simp [sweepDisappeared, ih]

/-- Scrubbing the `throws` flags leaves the per-address callback lists
intact up to the flag (ids and order preserved). -/
theorem lookupUnavailable_setThrows (g : Nat → Bool)
    (unavail : List (String × List UnavailableCallback)) (address : String) :
    lookupUnavailable (setUnavailableThrows g unavail) address =
      (lookupUnavailable unavail address).map
        (fun cb => { id := cb.id, throws := g cb.id }) := by
  induction unavail with
  | nil => rfl
  | cons p rest ih =>
      obtain ⟨addr, cbs⟩ := p
      have h1 : setUnavailableThrows g ((addr, cbs) :: rest) =
          (addr, cbs.map (fun cb => { id := cb.id, throws := g cb.id })) ::
            setUnavailableThrows g rest := rfl
      rw [h1]
      cases haddr : (addr == address)
      · have e1 : lookupUnavailable
            ((addr, cbs.map (fun cb => { id := cb.id, throws := g cb.id })) ::
              setUnavailableThrows g rest) address =
            lookupUnavailable (setUnavailableThrows g rest) address := by
          simp [lookupUnavailable, List.find?, haddr]
        have e2 : lookupUnavailable ((addr, cbs) :: rest) address =
            lookupUnavailable rest address := by
          simp [lookupUnavailable, List.find?, haddr]
        rw [e1, e2, ih]
      · have e1 : lookupUnavailable
            ((addr, cbs.map (fun cb => { id := cb.id, throws := g cb.id })) ::
              setUnavailableThrows g rest) address =
            cbs.map (fun cb => { id := cb.id, throws := g cb.id }) := by
          simp [lookupUnavailable, List.find?, haddr]
        have e2 : lookupUnavailable ((addr, cbs) :: rest) address = cbs := by
          simp [lookupUnavailable, List.find?, haddr]
        rw [e1, e2]

/-- C4: at a tracker tick, the disappeared set is exactly
history-minus-active (each address once); those entries are removed from
history; the unavailability callbacks of exactly the disappeared addresses
are invoked, once each, in registration order; and both the invocation list
and the resulting history are unchanged under any assignment of raise
behavior to the callbacks (raises are caught per callback). -/
theorem check_unavailable_spec (mgr : BluetoothManager) (active : List String)
    (hnodup : (mgr.history.map Prod.fst).Nodup) (g : Nat → Bool) :
    (∀ a : String, a ∈ (_async_check_unavailable mgr active).disappeared ↔
      (a ∈ mgr.history.map Prod.fst ∧ a ∉ active)) ∧
    ((_async_check_unavailable mgr active).disappeared.Nodup) ∧
    ((_async_check_unavailable mgr active).state.history =
      mgr.history.filter (fun p => active.contains p.1)) ∧
    ((_async_check_unavailable mgr active).invocations =
      (_async_check_unavailable mgr active).disappeared.flatMap (fun a =>
        (lookupUnavailable mgr.unavailable_callbacks a).map
          (fun cb => (a, cb.id)))) ∧
    ((_async_check_unavailable
        { mgr with unavailable_callbacks :=
            setUnavailableThrows g mgr.unavailable_callbacks } active).invocations =
      (_async_check_unavailable mgr active).invocations) ∧
    ((_async_check_unavailable
        { mgr with unavailable_callbacks :=
            setUnavailableThrows g mgr.unavailable_callbacks } active).state.history =
      (_async_check_unavailable mgr active).state.history) := by
  have hdis : (_async_check_unavailable mgr active).disappeared =
      (mgr.history.map Prod.fst).filter (fun a => !(active.contains a)) := rfl
  refine ⟨?_, ?_, ?_, ?_, ?_, ?_⟩
  · intro a
    rw [hdis]
    simp [List.mem_filter]
  · rw [hdis]
    exact hnodup.filter _
  · have hh : (_async_check_unavailable mgr active).state.history =
        (sweepDisappeared mgr.unavailable_callbacks mgr.history
          ((mgr.history.map Prod.fst).filter (fun a => !(active.contains a)))).1 :=
      rfl
    rw [hh, sweepDisappeared_hist]
    apply List.filter_congr
    intro p hp
    cases hact : active.contains p.1
    · have hmem : p.1 ∈ (mgr.history.map Prod.fst).filter
          (fun a => !(active.contains a)) := by
        simp only [List.mem_filter, hact]
        exact ⟨List.mem_map_of_mem Prod.fst hp, rfl⟩
      have hcont : ((mgr.history.map Prod.fst).filter
          (fun a => !(active.contains a))).contains p.1 = true := by
        simpa using hmem
      rw [hcont]
      rfl
    · have hnot : p.1 ∉ (mgr.history.map Prod.fst).filter
          (fun a => !(active.contains a)) := by
        intro hmem
        simp only [List.mem_filter, hact] at hmem
        exact Bool.noConfusion hmem.2
      have hcont : ((mgr.history.map Prod.fst).filter
          (fun a => !(active.contains a))).contains p.1 = false := by
        cases hcc : ((mgr.history.map Prod.fst).filter
            (fun a => !(active.contains a))).contains p.1
        · rfl
        · exact absurd (by simpa using hcc) hnot
      rw [hcont]
      rfl
  · rw [hdis]
    exact sweepDisappeared_invocations mgr.unavailable_callbacks _ mgr.history
  · have h1 : (_async_check_unavailable
        { mgr with unavailable_callbacks :=
            setUnavailableThrows g mgr.unavailable_callbacks } active).invocations =
        (sweepDisappeared (setUnavailableThrows g mgr.unavailable_callbacks)
          mgr.history
          ((mgr.history.map Prod.fst).filter (fun a => !(active.contains a)))).2.1 :=
      rfl
    have h2 : (_async_check_unavailable mgr active).invocations =
        (sweepDisappeared mgr.unavailable_callbacks mgr.history
          ((mgr.history.map Prod.fst).filter (fun a => !(active.contains a)))).2.1 :=
      rfl
    rw [h1, h2, sweepDisappeared_invocations, sweepDisappeared_invocations]
    congr 1
    funext a
    rw [lookupUnavailable_setThrows, List.map_map]
    rfl
  · have h1 : (_async_check_unavailable
        { mgr with unavailable_callbacks :=
            setUnavailableThrows g mgr.unavailable_callbacks } active).state.history =
        (sweepDisappeared (setUnavailableThrows g mgr.unavailable_callbacks)
          mgr.history
          ((mgr.history.map Prod.fst).filter (fun a => !(active.contains a)))).1 :=
      rfl
    have h2 : (_async_check_unavailable mgr active).state.history =
        (sweepDisappeared mgr.unavailable_callbacks mgr.history
          ((mgr.history.map Prod.fst).filter (fun a => !(active.contains a)))).1 :=
      rfl
    rw [h1, h2, sweepDisappeared_hist, sweepDisappeared_hist]

/-- C4 witness: address `X` (tracked, with one raising and one plain
callback) disappears while `Y` stays active: history keeps exactly `Y`,
and the invocations are `X`'s two callbacks in registration order. -/
theorem check_unavailable_spec_witness :
    (_async_check_unavailable mgrC4 ["Y"]).state.history =
      mgrC4.history.filter (fun p => (["Y"] : List String).contains p.1) :=
  (check_unavailable_spec mgrC4 ["Y"] (by decide) (fun _ => false)).2.2.1

/-- C6 counterexample: with `(cbA, none)` already registered (ahead of
`(cbB, none)`), registering the equal pair again and unregistering it —
`list.remove` deletes the FIRST equal occurrence — reorders the registry to
`[(cbB, none), (cbA, none)]`, so a subsequent advertisement dispatches the
two callbacks in the opposite order: dispatch behavior is not identical to
the original registry. -/
theorem register_unregister_duplicate_counterexample :
    (_device_detected
        (unregisterCallback (async_register_callback mgrC6 cbA none).state
          (cbA, none)) devAA advPlain).invocations ≠
      (_device_detected mgrC6 devAA advPlain).invocations := by
  decide

end Bluetooth
